import Mathlib

/-
  Verification development for xrpl-unl-tool.

  The repository's `src/main.rs` (the orchestration of the Load, Compare and
  Sign commands) is embedded faithfully below.  The collaborator modules that
  `main.rs` imports (crypto, util, manifest, structs, enums, secret, time) are
  not part of `src/`; following the specification they are modelled as an
  explicit environment of pure collaborator functions (`Env`), with the
  specification's stated contracts (base64 round trip, sign/verify round trip)
  taken as hypotheses where a theorem needs them.  Rust `panic!`/`expect`
  aborts and `?`-propagated errors are both modelled as `Except.error`, since
  both abort the command.  `await`ed I/O calls are recorded as an explicit
  effect trace so that "fails before any I/O" claims are statable.
-/

set_option linter.unusedVariables false

deriving instance DecidableEq for Except

namespace UnlTool

/-- Errors surfaced by the command arms of `main.rs`.  `expect` panics are
modelled as errors since both abort the command. -/
inductive Err where
  | noParams
  | wrongParamCount
  | parseError
  | unsupportedVersion
  | secretNotFound
  | decodeError (what : String)
  | serializeError
  | sourceUnavailable
  deriving DecidableEq

/-- Parameter errors: missing or malformed inputs to a command, reported
before any I/O per the specification's error taxonomy. -/
def Err.isParamError : Err → Bool
  | .noParams => true
  | .wrongParamCount => true
  | .parseError => true
  | _ => false

/-- Observable I/O effects performed by a command arm: fetching a document
(`get_unl`) and retrieving key material (`get_secret`). -/
inductive Effect where
  | fetch (id : String)
  | getSecret (name : String)
  deriving DecidableEq

/-- A decoded manifest (key-endorsement record), as consumed by `main.rs`:
sequence, master and signing public keys (base58 text), two signatures (hex
text) and an optional domain. -/
structure Manifest where
  sequence : Nat
  master_public_key : String
  signing_public_key : String
  signature : String
  master_signature : String
  domain : Option String
  deriving DecidableEq

/-- A validator entry of a decoded blob (structs.rs, fields as used by
`main.rs`): hex public key, raw wire-encoded manifest string, and the lazily
populated decoded manifest. -/
structure Validator where
  validation_public_key : String
  manifest : String
  decoded_manifest : Option Manifest
  deriving DecidableEq

/-- The decoded blob (structs.rs, fields as constructed at
`main.rs` lines 238-244): sequence, expiration in network-epoch time, and the
validator list. -/
structure DecodedBlob where
  sequence : Nat
  expiration : Int
  validators : List Validator
  deriving DecidableEq

/-- The list-document container (structs.rs, fields as used by `main.rs`):
issuer public key, issuer manifest wire string, base64 blob, signature. -/
structure Unl where
  public_key : String
  manifest : String
  blob : String
  signature : String
  deriving DecidableEq

/-- Result of `decode_unl`: optional decoded manifest and optional decoded
blob, as consumed by `main.rs` lines 42-47. -/
structure DecodedUnl where
  decoded_manifest : Option Manifest
  decoded_blob : Option DecodedBlob

/-- A signing keypair returned by the secret provider. -/
structure Keypair where
  public_key : String
  private_key : String
  deriving DecidableEq

/-- Modelled from the spec: the base58 network tag used by `main.rs`
(`enums::Version::NodePublic`); enums.rs is absent from src, and only the
NodePublic tag is used by `main.rs`. -/
inductive Version where
  | nodePublic
  deriving DecidableEq

/-- Modelled from the spec: the secret-provider kind, an open enumeration
(environment variable, named cloud secret store, ...); enums.rs is absent
from src, so the kind is abstracted as a tagged value. -/
structure SecretProvider where
  tag : String
  deriving DecidableEq

/-- Modelled from the spec: the collaborator modules imported by `main.rs`
but absent from src (util.rs, crypto.rs, manifest.rs, secret.rs), abstracted
as an environment of pure functions.  Fallibility mirrors the call sites in
`main.rs`: a function whose call carries `?` returns `Option`/`Except`, a
function called without `?` is total.  `now` stands for `Utc::now()`'s unix
timestamp and `generate_unl_file` for the file-write success flag read via
`.is_ok()`. -/
structure Env where
  get_unl : String → Except Err Unl
  get_secret : SecretProvider → String → Except Err (Option Keypair)
  secret_provider_from_str : String → Except Err SecretProvider
  get_manifests : String → Except Err (List String)
  decode_manifest : String → Option Manifest
  serialize_manifest_data : Manifest → Option String
  base58_decode : Version → String → Option (List Nat)
  base58_to_hex : String → String
  hex_to_base58 : String → Option String
  base64_encode : String → String
  base64_decode : String → Option String
  parse_blob : String → Option DecodedBlob
  serialize_blob : DecodedBlob → Option String
  sign : String → String → String → String
  verify_signature : String → String → String → Bool
  now : Int
  generate_unl_file : String → Bool

/-- Modelled from the spec: the fixed affine offset between the network epoch
(2000-01-01) and the unix epoch; time.rs is absent from src, the spec states
the conversion is a pure invertible affine offset with the constant taken
from the network's protocol definition. -/
def RIPPLE_EPOCH_OFFSET : Int := 946684800

/-- Modelled from the spec: unix time to network-epoch time (time.rs). -/
def convert_to_ripple_time (t : Int) : Int := t - RIPPLE_EPOCH_OFFSET

/-- Modelled from the spec: network-epoch time to unix time (time.rs). -/
def convert_to_unix_time (t : Int) : Int := t + RIPPLE_EPOCH_OFFSET

/-- Rust's `str::to_uppercase` on the character list (executable model;
`String.toUpper` itself does not reduce in the kernel). -/
def upperStr (s : String) : String := String.mk (s.data.map Char.toUpper)

/-- Lower-case hex digit of a value below 16, as produced by `hex::encode`. -/
def hexDigit (n : Nat) : Char :=
  if n < 10 then Char.ofNat (48 + n) else Char.ofNat (87 + n)

/-- Hex encoding of a byte string, as produced by `hex::encode` (lower-case;
`main.rs` applies `.to_uppercase()` on top). -/
def hexEncode (bs : List Nat) : String :=
  String.mk (bs.foldr (fun b acc => hexDigit (b / 16 % 16) :: hexDigit (b % 16) :: acc) [])

/-- Accumulating decimal digit parser over a character list: fails on any
non-digit character. -/
def digitsToNat (acc : Nat) : List Char → Option Nat
  | [] => some acc
  | c :: cs => if c.isDigit then digitsToNat (acc * 10 + (c.toNat - 48)) cs else none

/-- Decimal parsing of an unsigned integer below `bound`, as performed by
Rust's `str::parse` for an unsigned type: optional leading plus sign, at
least one digit, value within range. -/
def parse_unsigned (bound : Nat) (s : String) : Option Nat :=
  let cs := match s.data with
    | '+' :: rest => rest
    | l => l
  match cs with
  | [] => none
  | _ :: _ =>
    match digitsToNat 0 cs with
    | some n => if n < bound then some n else none
    | none => none

/-- `str::parse::<u32>` as used for the sequence parameter (`main.rs` 207). -/
def parse_u32 (s : String) : Option Nat := parse_unsigned 4294967296 s

/-- `str::parse::<u16>` as used for the expiration-days parameter
(`main.rs` 208). -/
def parse_u16 (s : String) : Option Nat := parse_unsigned 65536 s

/-- Modelled from the spec: `get_tick_or_cross` (util.rs, absent from src)
renders a boolean check outcome as a tick or a cross; `main.rs` line 258
applies it to the plain boolean `generate_unl_file(..).is_ok()`, fixing its
argument type to `bool`. -/
def get_tick_or_cross (b : Bool) : String := if b then "✓" else "✗"

/-- The two document shapes of the version-tagged list-document model. -/
inductive DocShape where
  | singleBlob
  | multiBlob
  deriving DecidableEq

/-- Modelled from the spec: version dispatch when parsing a loaded document
(structs.rs/util.rs, absent from src): absence of the `version` field or
value 1 selects the single-blob shape, value 2 the multi-blob shape, and any
other value fails with `UnsupportedVersion`. -/
def version_dispatch : Option Nat → Except Err DocShape
  | none => .ok .singleBlob
  | some 1 => .ok .singleBlob
  | some 2 => .ok .multiBlob
  | some _ => .error .unsupportedVersion

/-- Modelled from the spec: `decode_unl` (util.rs, absent from src) decodes
the document's top-level manifest, base64-decodes and JSON-parses the blob,
and for each validator decodes its embedded manifest, recording a failure as
`decoded_manifest = None` rather than aborting. -/
def decode_unl (env : Env) (u : Unl) : DecodedUnl :=
  { decoded_manifest := env.decode_manifest u.manifest
    decoded_blob :=
      ((env.base64_decode u.blob).bind env.parse_blob).map fun b =>
        { b with validators := b.validators.map fun v =>
            { v with decoded_manifest := env.decode_manifest v.manifest } } }

/-- The per-validator report line printed by the Load arm (`main.rs` 94-101):
hex key, its base58 rendering, the two boolean check outcomes, and the
domain (empty string when absent). -/
structure ValidatorLine where
  validation_public_key : String
  display_key : String
  master_check : Bool
  signing_check : Bool
  domain : String
  deriving DecidableEq

/-- One iteration of the Load arm's validator loop (`main.rs` 72-105): a
validator without a decoded manifest produces no line (the `else` branch is
empty); otherwise the manifest payload is re-serialized, both keys are
base58-decoded (each failure aborts via `?`), both signatures are checked,
and the line is rendered (the `?` on `hex_to_base58` can also abort). -/
def validatorLine (env : Env) (v : Validator) : Except Err (Option ValidatorLine) :=
  match v.decoded_manifest with
  | none => .ok none
  | some vm =>
    match env.serialize_manifest_data vm with
    | none => .error .serializeError
    | some payload =>
      match env.base58_decode .nodePublic vm.master_public_key with
      | none => .error (.decodeError "base58 master")
      | some mk =>
        let master_check := env.verify_signature (upperStr (hexEncode mk)) payload vm.master_signature
        match env.base58_decode .nodePublic vm.signing_public_key with
        | none => .error (.decodeError "base58 signing")
        | some sk =>
          let signing_check := env.verify_signature (upperStr (hexEncode sk)) payload vm.signature
          match env.hex_to_base58 v.validation_public_key with
          | none => .error (.decodeError "hex to base58")
          | some disp =>
            .ok (some { validation_public_key := v.validation_public_key
                        display_key := disp
                        master_check
                        signing_check
                        domain := vm.domain.getD "" })

/-- The Load arm's validator loop (`main.rs` 72-105): lines of the validators
with a decoded manifest, in order; any per-iteration error aborts the whole
loop. -/
def validatorLines (env : Env) : List Validator → Except Err (List ValidatorLine)
  | [] => .ok []
  | v :: vs =>
    match validatorLine env v with
    | .error e => .error e
    | .ok l =>
      match validatorLines env vs with
      | .error e => .error e
      | .ok ls =>
        .ok (match l with
             | none => ls
             | some x => x :: ls)

/-- The report assembled by the Load arm: the two top-level boolean
verification outcomes, the blob's sequence, the expiration converted to unix
time, and the per-validator lines. -/
structure LoadReport where
  manifest_verification : Bool
  unl_verification : Bool
  sequence : Nat
  expiration_unix : Int
  validator_lines : List ValidatorLine
  deriving DecidableEq

/-- The Load arm after the document has been fetched (`main.rs` 39-105):
decode the document, abort if the blob or the top-level manifest is missing
(`expect`), base58-decode the manifest's signing key (`?`), re-serialize the
manifest payload (`?`), check the manifest signature, base64-decode the blob
(`?`), check the blob signature, then run the validator loop. -/
def loadChecks (env : Env) (unl : Unl) : Except Err LoadReport :=
  let du := decode_unl env unl
  match du.decoded_blob with
  | none => .error (.decodeError "blob")
  | some decoded_blob =>
    match du.decoded_manifest with
    | none => .error (.decodeError "unl manifest")
    | some unl_decoded_manifest =>
      match env.base58_decode .nodePublic unl_decoded_manifest.signing_public_key with
      | none => .error (.decodeError "base58 unl signing")
      | some key_bytes =>
        let manifest_signing_key := upperStr (hexEncode key_bytes)
        match env.serialize_manifest_data unl_decoded_manifest with
        | none => .error .serializeError
        | some manifest_payload =>
          let manifest_verification :=
            env.verify_signature manifest_signing_key manifest_payload
              unl_decoded_manifest.signature
          match env.base64_decode unl.blob with
          | none => .error (.decodeError "base64")
          | some blob_bytes =>
            let unl_verification :=
              env.verify_signature manifest_signing_key blob_bytes unl.signature
            match validatorLines env decoded_blob.validators with
            | .error e => .error e
            | .ok lines =>
              .ok { manifest_verification
                    unl_verification
                    sequence := decoded_blob.sequence
                    expiration_unix := convert_to_unix_time decoded_blob.expiration
                    validator_lines := lines }

/-- The full Load command arm (`main.rs` 33-106): require an argument, fetch
the document, then run the checks. -/
def loadArm (env : Env) (arg : Option String) : Except Err LoadReport × List Effect :=
  match arg with
  | none => (.error .noParams, [])
  | some url_or_file =>
    match env.get_unl url_or_file with
    | .error e => (.error e, [.fetch url_or_file])
    | .ok unl => (loadChecks env unl, [.fetch url_or_file])

/-- The Sign arm's validator construction (`main.rs` 227-236): decode every
candidate manifest (any failure aborts via `?`) and build a validator whose
`validation_public_key` is the upper-case hex of the manifest's master
public key and whose `decoded_manifest` is `None`. -/
def buildValidators (env : Env) : List String → Except Err (List Validator)
  | [] => .ok []
  | m :: rest =>
    match env.decode_manifest m with
    | none => .error (.decodeError "manifest")
    | some dm =>
      match buildValidators env rest with
      | .error e => .error e
      | .ok vs =>
        .ok ({ validation_public_key := upperStr (env.base58_to_hex dm.master_public_key)
               manifest := m
               decoded_manifest := none } :: vs)

/-- The record of a successful Sign run: the assembled output document
together with the intermediate values the specification talks about (the
built blob, the serialized payload the signature covers, and the keypair
used). -/
structure SignOutput where
  unl : Unl
  decoded_blob : DecodedBlob
  payload : String
  keypair : Keypair
  deriving DecidableEq

/-- The Sign command arm (`main.rs` 196-260): require exactly six parameters
(manifest, manifests source, sequence, expiration days, secret provider,
secret id), parse sequence and days, resolve the provider, fetch the secret
(fatal if absent), read the candidate manifests, build the validators, build
the blob with `expiration = now + days` converted to network-epoch time,
serialize it, sign the serialized payload, and assemble the document whose
`blob` is the base64 encoding of that same payload. -/
def signArm (env : Env) (arg : Option (List String)) : Except Err SignOutput × List Effect :=
  match arg with
  | none => (.error .noParams, [])
  | some params =>
    if params.length = 6 then
      match parse_u32 (params.getD 2 "") with
      | none => (.error .parseError, [])
      | some sequence =>
        match parse_u16 (params.getD 3 "") with
        | none => (.error .parseError, [])
        | some days =>
          match env.secret_provider_from_str (params.getD 4 "") with
          | .error e => (.error e, [])
          | .ok provider =>
            match env.get_secret provider (params.getD 5 "") with
            | .error e => (.error e, [.getSecret (params.getD 5 "")])
            | .ok none => (.error .secretNotFound, [.getSecret (params.getD 5 "")])
            | .ok (some keypair) =>
              match env.get_manifests (params.getD 1 "") with
              | .error e => (.error e, [.getSecret (params.getD 5 "")])
              | .ok ms =>
                match buildValidators env ms with
                | .error e => (.error e, [.getSecret (params.getD 5 "")])
                | .ok validators =>
                  let decoded_blob : DecodedBlob :=
                    { sequence
                      expiration := convert_to_ripple_time (env.now + (days : Int) * 86400)
                      validators }
                  match env.serialize_blob decoded_blob with
                  | none => (.error .serializeError, [.getSecret (params.getD 5 "")])
                  | some payload =>
                    (.ok { unl := { public_key := keypair.public_key
                                    manifest := params.getD 0 ""
                                    blob := env.base64_encode payload
                                    signature := env.sign keypair.public_key keypair.private_key payload }
                           decoded_blob
                           payload
                           keypair },
                     [.getSecret (params.getD 5 "")])
    else (.error .wrongParamCount, [])

/-- A diff entry rendered by the Compare arm (`main.rs` 147-151): the decoded
manifest's master public key followed by its domain (empty when absent). -/
def renderDiffEntry (dm : Manifest) : String :=
  dm.master_public_key ++ " " ++ dm.domain.getD ""

/-- Rendering of one side's differing entries (`main.rs` 144-162): decode
each differing manifest (any failure aborts via `?`) and render it. -/
def diffRender (env : Env) : List String → Except Err (List String)
  | [] => .ok []
  | m :: rest =>
    match env.decode_manifest m with
    | none => .error (.decodeError "manifest")
    | some dm =>
      match diffRender env rest with
      | .error e => .error e
      | .ok ys => .ok (renderDiffEntry dm :: ys)

/-- Outcome of the Compare arm: either a distinct "same validators" report
carrying the first document's validator count, or the two rendered
difference lists together with both counts. -/
inductive CompareResult where
  | equal (count : Nat)
  | diff (count1 count2 : Nat) (in1not2 in2not1 : List String)
  deriving DecidableEq

/-- The set-difference computation of the Compare arm (`main.rs` 136-141):
manifest strings of the first list that are, as set members, not in the
second.  Rust's `HashSet` is modelled by deduplication plus membership
filtering; iteration order of a `HashSet` is unspecified, so theorems about
this list only use its membership. -/
def setDiff (xs ys : List String) : List String :=
  xs.dedup.filter fun m => !decide (m ∈ ys)

/-- The Compare command arm (`main.rs` 107-194): require exactly two
sources, fetch and decode both documents (an undecodable blob is fatal),
key the validator sets by the raw manifest wire string, compute both set
differences, render every differing entry by decoding its manifest (fatal
on failure), and report either equality or the two difference lists. -/
def compareArm (env : Env) (arg : Option (List String)) : Except Err CompareResult × List Effect :=
  match arg with
  | none => (.error .noParams, [])
  | some ids =>
    if ids.length = 2 then
      match env.get_unl (ids.getD 0 "") with
      | .error e => (.error e, [.fetch (ids.getD 0 "")])
      | .ok unl_1 =>
        match env.get_unl (ids.getD 1 "") with
        | .error e => (.error e, [.fetch (ids.getD 0 ""), .fetch (ids.getD 1 "")])
        | .ok unl_2 =>
          match (decode_unl env unl_1).decoded_blob with
          | none => (.error (.decodeError "blob 1"), [.fetch (ids.getD 0 ""), .fetch (ids.getD 1 "")])
          | some blob_1 =>
            match (decode_unl env unl_2).decoded_blob with
            | none => (.error (.decodeError "blob 2"), [.fetch (ids.getD 0 ""), .fetch (ids.getD 1 "")])
            | some blob_2 =>
              let ms1 := blob_1.validators.map Validator.manifest
              let ms2 := blob_2.validators.map Validator.manifest
              let result :=
                match diffRender env (setDiff ms1 ms2) with
                | .error e => Except.error e
                | .ok a_but_not_b =>
                  match diffRender env (setDiff ms2 ms1) with
                  | .error e => Except.error e
                  | .ok b_but_not_a =>
                    if a_but_not_b.isEmpty ∧ b_but_not_a.isEmpty then
                      Except.ok (CompareResult.equal ms1.length)
                    else
                      Except.ok (CompareResult.diff ms1.length ms2.length a_but_not_b b_but_not_a)
              (result, [.fetch (ids.getD 0 ""), .fetch (ids.getD 1 "")])
    else (.error .wrongParamCount, [])

/-! ### Concrete fixtures

A small concrete instantiation of the collaborator environment, used to
evidence the theorems below on explicit inputs.  The toy codec is the
identity (base64), string tables (manifest decoding, base58) and a tagged
string scheme for sign/verify; all of it satisfies the specification's
contracts (round trips) that the theorems take as hypotheses. -/

/-- Issuer manifest fixture: signing key decodes to bytes `[1, 2]`, so the
derived hex verification key is `0102`. -/
def imManifest : Manifest :=
  { sequence := 1
    master_public_key := "IMMASTER"
    signing_public_key := "KEYB58"
    signature := "0102:sk1:MP-IMMASTER"
    master_signature := "ims"
    domain := none }

/-- A well-formed validator manifest fixture. -/
def vm1 : Manifest :=
  { sequence := 2
    master_public_key := "V1MASTER"
    signing_public_key := "V1SIGNING"
    signature := "0506:sk1:MP-V1MASTER"
    master_signature := "0304:sk1:MP-V1MASTER"
    domain := some "v1.example.com" }

/-- A second validator manifest fixture (no domain). -/
def vm2 : Manifest :=
  { sequence := 3
    master_public_key := "V2MASTER"
    signing_public_key := "V2SIGNING"
    signature := "s2"
    master_signature := "ms2"
    domain := some "v2.example.net" }

/-- A validator manifest whose master public key is not base58-decodable in
the fixture environment. -/
def vmBadKey : Manifest :=
  { sequence := 4
    master_public_key := "BADKEY"
    signing_public_key := "V1SIGNING"
    signature := "s4"
    master_signature := "ms4"
    domain := none }

/-- A raw (not yet decoded) validator entry as it appears inside a parsed
blob. -/
def rawValidator (vpk m : String) : Validator :=
  { validation_public_key := vpk, manifest := m, decoded_manifest := none }

/-- A fully decoded well-formed validator entry fixture. -/
def vGood : Validator :=
  { validation_public_key := "0304", manifest := "M1", decoded_manifest := some vm1 }

/-- Blob fixture with one decodable-manifest validator and one whose
manifest does not decode. -/
def blobA : DecodedBlob :=
  { sequence := 3, expiration := 100,
    validators := [rawValidator "0304" "M1", rawValidator "FFFF" "VBAD"] }

/-- Blob fixture with a single validator whose decoded manifest has a
non-base58-decodable master key. -/
def blobB : DecodedBlob :=
  { sequence := 4, expiration := 100, validators := [rawValidator "0304" "NOB58"] }

/-- Blob fixture with a single validator whose manifest does not decode. -/
def blobC : DecodedBlob :=
  { sequence := 9, expiration := 50, validators := [rawValidator "FFFF" "VBAD"] }

/-- Compare fixtures: first document's blob with validators M1 and M2. -/
def blobD1 : DecodedBlob :=
  { sequence := 1, expiration := 0,
    validators := [rawValidator "0304" "M1", rawValidator "0506" "M2"] }

/-- Compare fixtures: second document's blob with validator M1 only. -/
def blobD2 : DecodedBlob :=
  { sequence := 2, expiration := 0, validators := [rawValidator "0304" "M1"] }

/-- Compare fixtures: a blob whose only validator has an undecodable
manifest. -/
def blobD3 : DecodedBlob :=
  { sequence := 5, expiration := 0, validators := [rawValidator "AAAA" "VBAD"] }

/-- Document fixture around `blobA` (all signatures chosen valid for the
fixture verify function). -/
def unlA : Unl :=
  { public_key := "0102", manifest := "IM", blob := "BLOB-A",
    signature := "0102:sk1:BLOB-A" }

/-- Document fixture around `blobB`. -/
def unlB : Unl :=
  { public_key := "0102", manifest := "IM", blob := "BLOB-B",
    signature := "0102:sk1:BLOB-B" }

/-- Document fixture around `blobC`. -/
def unlC : Unl :=
  { public_key := "0102", manifest := "IM", blob := "BLOB-C",
    signature := "0102:sk1:BLOB-C" }

/-- Document fixture around `blobD1`. -/
def unlD1 : Unl :=
  { public_key := "0102", manifest := "IM", blob := "BLOB-D1",
    signature := "0102:sk1:BLOB-D1" }

/-- Document fixture around `blobD2`. -/
def unlD2 : Unl :=
  { public_key := "0102", manifest := "IM", blob := "BLOB-D2",
    signature := "0102:sk1:BLOB-D2" }

/-- Document fixture around `blobD3`. -/
def unlD3 : Unl :=
  { public_key := "0102", manifest := "IM", blob := "BLOB-D3",
    signature := "0102:sk1:BLOB-D3" }

/-- The concrete fixture environment. -/
def testEnv : Env :=
  { get_unl := fun id =>
      if id = "uA" then .ok unlA
      else if id = "uB" then .ok unlB
      else if id = "uC" then .ok unlC
      else if id = "uD1" then .ok unlD1
      else if id = "uD2" then .ok unlD2
      else if id = "uD3" then .ok unlD3
      else .error .sourceUnavailable
    get_secret := fun _ name =>
      if name = "sid" then .ok (some { public_key := "0102", private_key := "sk1" })
      else .ok none
    secret_provider_from_str := fun s => .ok { tag := s }
    get_manifests := fun s =>
      if s = "msrc" then .ok ["M1"]
      else if s = "badsrc" then .ok ["M1", "VBAD"]
      else .ok []
    decode_manifest := fun s =>
      if s = "IM" then some imManifest
      else if s = "M1" then some vm1
      else if s = "M2" then some vm2
      else if s = "NOB58" then some vmBadKey
      else none
    serialize_manifest_data := fun m => some ("MP-" ++ m.master_public_key)
    base58_decode := fun _ s =>
      if s = "KEYB58" then some [1, 2]
      else if s = "V1MASTER" then some [3, 4]
      else if s = "V1SIGNING" then some [5, 6]
      else none
    base58_to_hex := fun s => s
    hex_to_base58 := fun s => some ("n" ++ s)
    base64_encode := fun s => s
    base64_decode := fun s => some s
    parse_blob := fun s =>
      if s = "PAYLOAD0" then some { sequence := 7, expiration := 0, validators := [] }
      else if s = "BLOB-A" then some blobA
      else if s = "BLOB-B" then some blobB
      else if s = "BLOB-C" then some blobC
      else if s = "BLOB-D1" then some blobD1
      else if s = "BLOB-D2" then some blobD2
      else if s = "BLOB-D3" then some blobD3
      else none
    serialize_blob := fun _ => some "PAYLOAD0"
    sign := fun pk sk msg => pk ++ ":" ++ sk ++ ":" ++ msg
    verify_signature := fun pk msg sig => sig == pk ++ ":" ++ "sk1" ++ ":" ++ msg
    now := 1000000000
    generate_unl_file := fun _ => true }

/-- The output record of the fixture Sign run used as concrete evidence. -/
def signOutFx : SignOutput :=
  { unl := { public_key := "0102", manifest := "IM", blob := "PAYLOAD0",
             signature := "0102:sk1:PAYLOAD0" }
    decoded_blob := { sequence := 7
                      expiration := convert_to_ripple_time (1000000000 + 30 * 86400)
                      validators := [{ validation_public_key := "V1MASTER", manifest := "M1",
                                       decoded_manifest := none }] }
    payload := "PAYLOAD0"
    keypair := { public_key := "0102", private_key := "sk1" } }

/-! ### Helper lemmas -/

theorem mem_setDiff {xs ys : List String} {m : String} :
    m ∈ setDiff xs ys ↔ m ∈ xs ∧ m ∉ ys := by
  simp [setDiff, List.mem_filter, List.mem_dedup]

theorem setDiff_eq_nil {xs ys : List String} (h : ∀ m, m ∈ xs → m ∈ ys) :
    setDiff xs ys = [] := by
  refine List.eq_nil_iff_forall_not_mem.mpr fun m hm => ?_
  exact (mem_setDiff.mp hm).2 (h m (mem_setDiff.mp hm).1)

theorem diffRender_ok (env : Env) {xs : List String}
    (h : ∀ m ∈ xs, (env.decode_manifest m).isSome) :
    diffRender env xs =
      .ok (xs.filterMap fun m => (env.decode_manifest m).map renderDiffEntry) := by
  induction xs with
  | nil => rfl
  | cons m rest ih =>
    obtain ⟨dm, hdm⟩ := Option.isSome_iff_exists.mp (h m (by simp))
    rw [List.filterMap_cons]
    simp only [diffRender, hdm, ih (fun x hx => h x (by simp [hx])), Option.map_some']

theorem diffRender_error (env : Env) {xs : List String}
    (h : ∃ m ∈ xs, env.decode_manifest m = none) :
    diffRender env xs = .error (.decodeError "manifest") := by
  induction xs with
  | nil => simp at h
  | cons m rest ih =>
    rcases h with ⟨x, hx, hnone⟩
    rcases List.mem_cons.mp hx with rfl | hxr
    · simp [diffRender, hnone]
    · cases hdm : env.decode_manifest m with
      | none => simp [diffRender, hdm]
      | some dm => simp [diffRender, hdm, ih ⟨x, hxr, hnone⟩]

theorem length_filterMap_decode (env : Env) {xs : List String}
    (h : ∀ m ∈ xs, (env.decode_manifest m).isSome) :
    (xs.filterMap fun m => (env.decode_manifest m).map renderDiffEntry).length = xs.length := by
  induction xs with
  | nil => rfl
  | cons m rest ih =>
    obtain ⟨dm, hdm⟩ := Option.isSome_iff_exists.mp (h m (by simp))
    rw [List.filterMap_cons]
    simp [hdm, ih (fun x hx => h x (by simp [hx]))]

theorem validatorLines_cons_none (env : Env) {v : Validator} (vs : List Validator)
    (h : v.decoded_manifest = none) :
    validatorLines env (v :: vs) = validatorLines env vs := by
  cases hr : validatorLines env vs <;> simp [validatorLines, validatorLine, h, hr]

theorem validatorLines_error_of_mem (env : Env) {v : Validator} {vs : List Validator} {e : Err}
    (hv : v ∈ vs) (he : validatorLine env v = .error e) :
    ∃ e2, validatorLines env vs = .error e2 := by
  induction vs with
  | nil => simp at hv
  | cons w rest ih =>
    cases hline : validatorLine env w with
    | error e2 => exact ⟨e2, by simp [validatorLines, hline]⟩
    | ok l =>
      rcases List.mem_cons.mp hv with rfl | hvr
      · rw [he] at hline; cases hline
      · obtain ⟨e2, h2⟩ := ih hvr
        exact ⟨e2, by simp [validatorLines, hline, h2]⟩

theorem validatorLine_error_base58 (env : Env) {v : Validator} {vm : Manifest} {p : String}
    (h1 : v.decoded_manifest = some vm)
    (h2 : env.serialize_manifest_data vm = some p)
    (h3 : env.base58_decode .nodePublic vm.master_public_key = none ∨
          env.base58_decode .nodePublic vm.signing_public_key = none) :
    ∃ e, validatorLine env v = .error e := by
  rcases h3 with h3 | h3
  · exact ⟨.decodeError "base58 master", by simp [validatorLine, h1, h2, h3]⟩
  · cases hmk : env.base58_decode .nodePublic vm.master_public_key with
    | none => exact ⟨.decodeError "base58 master", by simp [validatorLine, h1, h2, hmk]⟩
    | some mk => exact ⟨.decodeError "base58 signing", by simp [validatorLine, h1, h2, hmk, h3]⟩

theorem validatorLine_ok (env : Env) {v : Validator} {vm : Manifest} {p disp : String}
    {mk sk : List Nat}
    (h1 : v.decoded_manifest = some vm)
    (h2 : env.serialize_manifest_data vm = some p)
    (h3 : env.base58_decode .nodePublic vm.master_public_key = some mk)
    (h4 : env.base58_decode .nodePublic vm.signing_public_key = some sk)
    (h5 : env.hex_to_base58 v.validation_public_key = some disp) :
    validatorLine env v =
      .ok (some { validation_public_key := v.validation_public_key
                  display_key := disp
                  master_check := env.verify_signature (upperStr (hexEncode mk)) p vm.master_signature
                  signing_check := env.verify_signature (upperStr (hexEncode sk)) p vm.signature
                  domain := vm.domain.getD "" }) := by
  simp [validatorLine, h1, h2, h3, h4, h5]

theorem buildValidators_error (env : Env) {ms : List String}
    (h : ∃ m ∈ ms, env.decode_manifest m = none) :
    buildValidators env ms = .error (.decodeError "manifest") := by
  induction ms with
  | nil => simp at h
  | cons m rest ih =>
    rcases h with ⟨x, hx, hnone⟩
    rcases List.mem_cons.mp hx with rfl | hxr
    · simp [buildValidators, hnone]
    · cases hdm : env.decode_manifest m with
      | none => simp [buildValidators, hdm]
      | some dm => simp [buildValidators, hdm, ih ⟨x, hxr, hnone⟩]

theorem buildValidators_ok (env : Env) {ms : List String}
    (h : ∀ m ∈ ms, (env.decode_manifest m).isSome) :
    buildValidators env ms =
      .ok (ms.filterMap fun m => (env.decode_manifest m).map fun dm =>
        { validation_public_key := upperStr (env.base58_to_hex dm.master_public_key)
          manifest := m
          decoded_manifest := none }) := by
  induction ms with
  | nil => rfl
  | cons m rest ih =>
    obtain ⟨dm, hdm⟩ := Option.isSome_iff_exists.mp (h m (by simp))
    rw [List.filterMap_cons]
    simp only [buildValidators, hdm, ih (fun x hx => h x (by simp [hx])), Option.map_some']

theorem signArm_eq_ok (env : Env) (p0 p1 p2 p3 p4 p5 : String) {sequence days : Nat}
    {provider : SecretProvider} {kp : Keypair} {ms : List String}
    {validators : List Validator} {payload : String}
    (h2 : parse_u32 p2 = some sequence)
    (h3 : parse_u16 p3 = some days)
    (h4 : env.secret_provider_from_str p4 = .ok provider)
    (h5 : env.get_secret provider p5 = .ok (some kp))
    (h1 : env.get_manifests p1 = .ok ms)
    (hv : buildValidators env ms = .ok validators)
    (hs : env.serialize_blob
        { sequence := sequence
          expiration := convert_to_ripple_time (env.now + (days : Int) * 86400)
          validators := validators } = some payload) :
    signArm env (some [p0, p1, p2, p3, p4, p5]) =
      (.ok { unl := { public_key := kp.public_key
                      manifest := p0
                      blob := env.base64_encode payload
                      signature := env.sign kp.public_key kp.private_key payload }
             decoded_blob :=
               { sequence := sequence
                 expiration := convert_to_ripple_time (env.now + (days : Int) * 86400)
                 validators := validators }
             payload := payload
             keypair := kp },
       [.getSecret p5]) := by
  simp [signArm, h2, h3, h4, h5, h1, hv, hs, List.getD]

theorem signArm_ok_inv (env : Env) (arg : Option (List String)) (out : SignOutput)
    (effs : List Effect) (h : signArm env arg = (.ok out, effs)) :
    ∃ params sequence days provider ms,
      arg = some params ∧ params.length = 6 ∧
      parse_u32 (params.getD 2 "") = some sequence ∧
      parse_u16 (params.getD 3 "") = some days ∧
      env.secret_provider_from_str (params.getD 4 "") = .ok provider ∧
      env.get_secret provider (params.getD 5 "") = .ok (some out.keypair) ∧
      env.get_manifests (params.getD 1 "") = .ok ms ∧
      buildValidators env ms = .ok out.decoded_blob.validators ∧
      env.serialize_blob out.decoded_blob = some out.payload ∧
      out.decoded_blob.sequence = sequence ∧
      out.decoded_blob.expiration = convert_to_ripple_time (env.now + (days : Int) * 86400) ∧
      out.unl.public_key = out.keypair.public_key ∧
      out.unl.manifest = params.getD 0 "" ∧
      out.unl.blob = env.base64_encode out.payload ∧
      out.unl.signature = env.sign out.keypair.public_key out.keypair.private_key out.payload ∧
      effs = [.getSecret (params.getD 5 "")] := by
  match arg with
  | none => simp [signArm] at h
  | some params =>
    simp only [signArm] at h
    split at h
    case isFalse hlen => exact Except.noConfusion (congrArg Prod.fst h)
    case isTrue hlen =>
      split at h
      next hp2 => exact Except.noConfusion (congrArg Prod.fst h)
      next sequence hp2 =>
        split at h
        next hp3 => exact Except.noConfusion (congrArg Prod.fst h)
        next days hp3 =>
          split at h
          next e hp4 => exact Except.noConfusion (congrArg Prod.fst h)
          next provider hp4 =>
            split at h
            next e hp5 => exact Except.noConfusion (congrArg Prod.fst h)
            next hp5 => exact Except.noConfusion (congrArg Prod.fst h)
            next kp hp5 =>
              split at h
              next e hp1 => exact Except.noConfusion (congrArg Prod.fst h)
              next ms hp1 =>
                split at h
                next e hbv => exact Except.noConfusion (congrArg Prod.fst h)
                next validators hbv =>
                  split at h
                  next hsb => exact Except.noConfusion (congrArg Prod.fst h)
                  next payload hsb =>
                    injection h with h1 h2
                    injection h1 with h1
                    subst h1
                    exact ⟨params, sequence, days, provider, ms, rfl, hlen, hp2, hp3,
                      hp4, hp5, hp1, hbv, hsb, rfl, rfl, rfl, rfl, rfl, rfl, h2.symm⟩

example : parse_u32 "127" = some 127 := by decide
example : parse_u32 "+3" = some 3 := by decide
example : parse_u32 "x" = none := by decide
example : parse_u32 "" = none := by decide
example : parse_u32 "+" = none := by decide
example : parse_u16 "70000" = none := by decide
example : parse_u32 "4294967296" = none := by decide

theorem map_manifest_decode (env : Env) (vs : List Validator) :
    (vs.map fun v => { v with decoded_manifest := env.decode_manifest v.manifest }).map
      Validator.manifest = vs.map Validator.manifest := by
  induction vs with
  | nil => rfl
  | cons v rest ih => simp [ih]

theorem compareArm_reduce (env : Env) (id1 id2 : String) (u1 u2 : Unl)
    (s1 s2 : String) (b1 b2 : DecodedBlob)
    (hf1 : env.get_unl id1 = .ok u1) (hf2 : env.get_unl id2 = .ok u2)
    (hd1 : env.base64_decode u1.blob = some s1) (hp1 : env.parse_blob s1 = some b1)
    (hd2 : env.base64_decode u2.blob = some s2) (hp2 : env.parse_blob s2 = some b2) :
    compareArm env (some [id1, id2]) =
      ((match diffRender env (setDiff (b1.validators.map Validator.manifest)
            (b2.validators.map Validator.manifest)) with
        | .error e => Except.error e
        | .ok a_but_not_b =>
          match diffRender env (setDiff (b2.validators.map Validator.manifest)
              (b1.validators.map Validator.manifest)) with
          | .error e => Except.error e
          | .ok b_but_not_a =>
            if a_but_not_b.isEmpty ∧ b_but_not_a.isEmpty then
              Except.ok (.equal (b1.validators.map Validator.manifest).length)
            else
              Except.ok (.diff (b1.validators.map Validator.manifest).length
                (b2.validators.map Validator.manifest).length a_but_not_b b_but_not_a)),
       [.fetch id1, .fetch id2]) := by
  simp only [compareArm, List.length_cons, List.length_nil, Nat.zero_add, List.getD,
    List.get?_cons_zero, List.get?_cons_succ, List.getElem?_cons_zero,
    List.getElem?_cons_succ, Option.getD_some, hf1, hf2,
    decode_unl, hd1, hd2, hp1, hp2, Option.some_bind, Option.map_some',
    map_manifest_decode, if_pos]

/-! ### Claim theorems -/

/-- C3 (amended): parsing a loaded document dispatches on the `version`
field — absence or 1 selects the single-blob shape, 2 the multi-blob shape,
anything else fails with UnsupportedVersion (modelled from the spec, the
parsing module being absent from src) — while the Sign command takes no
version input: it rejects any parameter count other than six and, given six
parameters (manifest, manifests source, sequence, expiration days, secret
provider, secret id) and successful collaborators, produces a document. -/
theorem c3_version_dispatch_and_sign_params :
    (version_dispatch none = .ok .singleBlob) ∧
    (version_dispatch (some 1) = .ok .singleBlob) ∧
    (version_dispatch (some 2) = .ok .multiBlob) ∧
    (∀ n : Nat, n ≠ 1 → n ≠ 2 → version_dispatch (some n) = .error .unsupportedVersion) ∧
    (∀ (env : Env) (ps : List String), ps.length ≠ 6 →
      signArm env (some ps) = (.error .wrongParamCount, [])) ∧
    (∀ (env : Env) (p0 p1 p2 p3 p4 p5 : String) (sequence days : Nat)
       (provider : SecretProvider) (kp : Keypair) (ms : List String)
       (validators : List Validator) (payload : String),
      parse_u32 p2 = some sequence → parse_u16 p3 = some days →
      env.secret_provider_from_str p4 = .ok provider →
      env.get_secret provider p5 = .ok (some kp) →
      env.get_manifests p1 = .ok ms →
      buildValidators env ms = .ok validators →
      env.serialize_blob
        { sequence := sequence
          expiration := convert_to_ripple_time (env.now + (days : Int) * 86400)
          validators := validators } = some payload →
      ∃ out effs, signArm env (some [p0, p1, p2, p3, p4, p5]) = (.ok out, effs)) := by
  refine ⟨rfl, rfl, rfl, ?_, ?_, ?_⟩
  · intro n h1 h2
    match n with
    | 0 => rfl
    | 1 => exact absurd rfl h1
    | 2 => exact absurd rfl h2
    | (k + 3) => rfl
  · intro env ps hlen
    rw [signArm, if_neg hlen]
  · intro env p0 p1 p2 p3 p4 p5 sequence days provider kp ms validators payload
      h2 h3 h4 h5 h1 hv hs
    exact ⟨_, _, signArm_eq_ok env p0 p1 p2 p3 p4 p5 h2 h3 h4 h5 h1 hv hs⟩

/-- C3 counterexample: a Sign invocation carrying the version-2 surface
described by the specification (target version, effective timestamp) — or
even just a seventh parameter — is rejected with a parameter-count error
before any I/O; the Sign command accepts no target version. -/
theorem c3_counterexample :
    signArm testEnv (some ["2", "IM", "msrc", "7", "30", "ep", "sid", "1500000000"]) =
      (.error .wrongParamCount, []) ∧
    signArm testEnv (some ["2", "IM", "msrc", "7", "30", "ep", "sid"]) =
      (.error .wrongParamCount, []) := by
  exact ⟨by decide, by decide⟩

/-- C3 witness: the amended theorem applied at concrete inputs. -/
theorem c3_witness :
    version_dispatch (some 7) = .error .unsupportedVersion ∧
    signArm testEnv (some ["IM"]) = (.error .wrongParamCount, []) ∧
    ∃ out effs, signArm testEnv (some ["IM", "msrc", "7", "30", "ep", "sid"]) = (.ok out, effs) := by
  refine ⟨c3_version_dispatch_and_sign_params.2.2.2.1 7 (by decide) (by decide),
    c3_version_dispatch_and_sign_params.2.2.2.2.1 testEnv ["IM"] (by decide),
    c3_version_dispatch_and_sign_params.2.2.2.2.2 testEnv "IM" "msrc" "7" "30" "ep" "sid"
      7 30 { tag := "ep" } { public_key := "0102", private_key := "sk1" } ["M1"]
      [{ validation_public_key := "V1MASTER", manifest := "M1", decoded_manifest := none }]
      "PAYLOAD0" (by decide) (by decide) (by decide) (by decide) (by decide) (by decide)
      (by decide)⟩

/-- C5: the Compare command computes the diff of two decodable documents as
set differences keyed on the raw manifest wire string (membership
characterization for both directions), renders each differing entry by
decoding its manifest into master public key and domain, and aborts the
whole comparison with an error if any differing entry's manifest fails to
decode. -/
theorem c5_compare_set_differences (env : Env) (id1 id2 : String) (u1 u2 : Unl)
    (s1 s2 : String) (b1 b2 : DecodedBlob) (ms1 ms2 : List String)
    (hf1 : env.get_unl id1 = .ok u1) (hf2 : env.get_unl id2 = .ok u2)
    (hd1 : env.base64_decode u1.blob = some s1) (hp1 : env.parse_blob s1 = some b1)
    (hd2 : env.base64_decode u2.blob = some s2) (hp2 : env.parse_blob s2 = some b2)
    (hms1 : ms1 = b1.validators.map Validator.manifest)
    (hms2 : ms2 = b2.validators.map Validator.manifest) :
    (∀ m, m ∈ setDiff ms1 ms2 ↔ m ∈ ms1 ∧ m ∉ ms2) ∧
    (∀ m, m ∈ setDiff ms2 ms1 ↔ m ∈ ms2 ∧ m ∉ ms1) ∧
    ((∀ m ∈ setDiff ms1 ms2, (env.decode_manifest m).isSome) →
     (∀ m ∈ setDiff ms2 ms1, (env.decode_manifest m).isSome) →
     ¬((setDiff ms1 ms2).isEmpty = true ∧ (setDiff ms2 ms1).isEmpty = true) →
     compareArm env (some [id1, id2]) =
       (.ok (.diff ms1.length ms2.length
          ((setDiff ms1 ms2).filterMap fun m => (env.decode_manifest m).map renderDiffEntry)
          ((setDiff ms2 ms1).filterMap fun m => (env.decode_manifest m).map renderDiffEntry)),
        [.fetch id1, .fetch id2])) ∧
    ((∃ m, (m ∈ setDiff ms1 ms2 ∨ m ∈ setDiff ms2 ms1) ∧ env.decode_manifest m = none) →
     ∃ e, (compareArm env (some [id1, id2])).1 = .error e) := by
  subst hms1 hms2
  refine ⟨fun m => mem_setDiff, fun m => mem_setDiff, ?_, ?_⟩
  · intro hall1 hall2 hne
    have hcond : ¬(((setDiff (b1.validators.map Validator.manifest)
          (b2.validators.map Validator.manifest)).filterMap fun m =>
            (env.decode_manifest m).map renderDiffEntry).isEmpty = true ∧
        ((setDiff (b2.validators.map Validator.manifest)
          (b1.validators.map Validator.manifest)).filterMap fun m =>
            (env.decode_manifest m).map renderDiffEntry).isEmpty = true) := by
      intro ⟨he1, he2⟩
      refine hne ⟨?_, ?_⟩
      · rw [List.isEmpty_iff_length_eq_zero] at he1 ⊢
        rw [← length_filterMap_decode env hall1]
        exact he1
      · rw [List.isEmpty_iff_length_eq_zero] at he2 ⊢
        rw [← length_filterMap_decode env hall2]
        exact he2
    rw [compareArm_reduce env id1 id2 u1 u2 s1 s2 b1 b2 hf1 hf2 hd1 hp1 hd2 hp2,
      diffRender_ok env hall1, diffRender_ok env hall2]
    simp only []
    rw [if_neg hcond]
  · intro ⟨m, hm, hnone⟩
    rw [compareArm_reduce env id1 id2 u1 u2 s1 s2 b1 b2 hf1 hf2 hd1 hp1 hd2 hp2]
    rcases hm with hm | hm
    · rw [diffRender_error env ⟨m, hm, hnone⟩]
      exact ⟨.decodeError "manifest", rfl⟩
    · cases hr1 : diffRender env (setDiff (b1.validators.map Validator.manifest)
          (b2.validators.map Validator.manifest)) with
      | error e => exact ⟨e, rfl⟩
      | ok ys =>
        rw [diffRender_error env ⟨m, hm, hnone⟩]
        exact ⟨.decodeError "manifest", rfl⟩

/-- C5 witness: the theorem applied to concrete fixture documents — one
genuine diff (rendered master key and domain), and one comparison whose
differing entry's manifest does not decode (the comparison aborts). -/
theorem c5_witness :
    compareArm testEnv (some ["uD1", "uD2"]) =
      (.ok (.diff 2 1 ["V2MASTER v2.example.net"] []), [.fetch "uD1", .fetch "uD2"]) ∧
    (∃ e, (compareArm testEnv (some ["uD3", "uD2"])).1 = .error e) := by
  constructor
  · have h := (c5_compare_set_differences testEnv "uD1" "uD2" unlD1 unlD2 "BLOB-D1" "BLOB-D2"
      blobD1 blobD2 (blobD1.validators.map Validator.manifest)
      (blobD2.validators.map Validator.manifest)
      (by decide) (by decide) (by decide) (by decide) (by decide) (by decide) rfl rfl).2.2.1
      (by decide) (by decide) (by decide)
    exact h.trans (by decide)
  · exact (c5_compare_set_differences testEnv "uD3" "uD2" unlD3 unlD2 "BLOB-D3" "BLOB-D2"
      blobD3 blobD2 (blobD3.validators.map Validator.manifest)
      (blobD2.validators.map Validator.manifest)
      (by decide) (by decide) (by decide) (by decide) (by decide) (by decide) rfl rfl).2.2.2
      ⟨"VBAD", Or.inl (by decide), by decide⟩

/-- C6: comparing two documents whose validator manifest-string sets are
equal produces empty differences and reports the distinct "equal" outcome
(the `equal` constructor, not a diff with empty lists). -/
theorem c6_equal_sets_report_equality (env : Env) (id1 id2 : String) (u1 u2 : Unl)
    (s1 s2 : String) (b1 b2 : DecodedBlob)
    (hf1 : env.get_unl id1 = .ok u1) (hf2 : env.get_unl id2 = .ok u2)
    (hd1 : env.base64_decode u1.blob = some s1) (hp1 : env.parse_blob s1 = some b1)
    (hd2 : env.base64_decode u2.blob = some s2) (hp2 : env.parse_blob s2 = some b2)
    (heq : ∀ m, m ∈ b1.validators.map Validator.manifest ↔
      m ∈ b2.validators.map Validator.manifest) :
    setDiff (b1.validators.map Validator.manifest) (b2.validators.map Validator.manifest) = [] ∧
    setDiff (b2.validators.map Validator.manifest) (b1.validators.map Validator.manifest) = [] ∧
    compareArm env (some [id1, id2]) =
      (.ok (.equal b1.validators.length), [.fetch id1, .fetch id2]) := by
  refine ⟨setDiff_eq_nil (fun m hm => (heq m).mp hm),
    setDiff_eq_nil (fun m hm => (heq m).mpr hm), ?_⟩
  rw [compareArm_reduce env id1 id2 u1 u2 s1 s2 b1 b2 hf1 hf2 hd1 hp1 hd2 hp2,
    setDiff_eq_nil (fun m hm => (heq m).mp hm),
    setDiff_eq_nil (fun m hm => (heq m).mpr hm)]
  simp [diffRender]

/-- C6 witness: comparing the fixture document against itself yields the
"equal" outcome with its validator count. -/
theorem c6_witness :
    compareArm testEnv (some ["uA", "uA"]) = (.ok (.equal 2), [.fetch "uA", .fetch "uA"]) := by
  have h := c6_equal_sets_report_equality testEnv "uA" "uA" unlA unlA "BLOB-A" "BLOB-A"
    blobA blobA (by decide) (by decide) (by decide) (by decide) (by decide) (by decide)
    (fun m => Iff.rfl)
  exact h.2.2.trans (by decide)

/-- C7: in the Sign command every candidate validator manifest is decoded —
a single decode failure aborts the whole signing operation with an error —
and each successfully decoded validator's `validation_public_key` is the
(upper-case) hex of its manifest's master public key. -/
theorem c7_sign_validator_processing (env : Env) (p0 p1 p2 p3 p4 p5 : String)
    (sequence days : Nat) (provider : SecretProvider) (kp : Keypair) (ms : List String)
    (h2 : parse_u32 p2 = some sequence)
    (h3 : parse_u16 p3 = some days)
    (h4 : env.secret_provider_from_str p4 = .ok provider)
    (h5 : env.get_secret provider p5 = .ok (some kp))
    (h1 : env.get_manifests p1 = .ok ms) :
    ((∃ m ∈ ms, env.decode_manifest m = none) →
      (signArm env (some [p0, p1, p2, p3, p4, p5])).1 = .error (.decodeError "manifest")) ∧
    (∀ payload : String,
      (∀ m ∈ ms, (env.decode_manifest m).isSome) →
      env.serialize_blob
        { sequence := sequence
          expiration := convert_to_ripple_time (env.now + (days : Int) * 86400)
          validators := ms.filterMap fun m => (env.decode_manifest m).map fun dm =>
            { validation_public_key := upperStr (env.base58_to_hex dm.master_public_key)
              manifest := m
              decoded_manifest := none } } = some payload →
      ∃ out effs, signArm env (some [p0, p1, p2, p3, p4, p5]) = (.ok out, effs) ∧
        out.decoded_blob.validators = ms.filterMap fun m => (env.decode_manifest m).map fun dm =>
          { validation_public_key := upperStr (env.base58_to_hex dm.master_public_key)
            manifest := m
            decoded_manifest := none }) := by
  constructor
  · intro hex
    have hbv := buildValidators_error env hex
    simp [signArm, h2, h3, h4, h5, h1, hbv, List.getD]
  · intro payload hall hsb
    have hbv := buildValidators_ok env hall
    exact ⟨_, _, signArm_eq_ok env p0 p1 p2 p3 p4 p5 h2 h3 h4 h5 h1 hbv hsb, rfl⟩

/-- C7 witness: the theorem applied to the fixture environment, on a
manifest source with an undecodable entry (abort) and on a fully decodable
source (validators built with upper-case hex master keys). -/
theorem c7_witness :
    (signArm testEnv (some ["IM", "badsrc", "7", "30", "ep", "sid"])).1 =
      .error (.decodeError "manifest") ∧
    ∃ out effs, signArm testEnv (some ["IM", "msrc", "7", "30", "ep", "sid"]) = (.ok out, effs) ∧
      out.decoded_blob.validators =
        [{ validation_public_key := "V1MASTER", manifest := "M1", decoded_manifest := none }] := by
  constructor
  · exact (c7_sign_validator_processing testEnv "IM" "badsrc" "7" "30" "ep" "sid"
      7 30 { tag := "ep" } { public_key := "0102", private_key := "sk1" } ["M1", "VBAD"]
      (by decide) (by decide) (by decide) (by decide) (by decide)).1
      ⟨"VBAD", by decide, by decide⟩
  · obtain ⟨out, effs, heq, hv⟩ := (c7_sign_validator_processing testEnv "IM" "msrc" "7" "30"
      "ep" "sid" 7 30 { tag := "ep" } { public_key := "0102", private_key := "sk1" } ["M1"]
      (by decide) (by decide) (by decide) (by decide) (by decide)).2
      "PAYLOAD0" (by decide) (by decide)
    exact ⟨out, effs, heq, hv.trans (by decide)⟩

/-- C8: every successful Sign run builds a blob whose sequence is exactly
the parsed caller-supplied sequence parameter and whose expiration is the
current time plus the requested horizon in days, converted to network-epoch
time by the fixed affine offset; converting back yields the same universal
time instant. -/
theorem c8_blob_sequence_expiration (env : Env) (arg : Option (List String))
    (out : SignOutput) (effs : List Effect)
    (h : signArm env arg = (.ok out, effs)) :
    ∃ params days,
      arg = some params ∧
      parse_u32 (params.getD 2 "") = some out.decoded_blob.sequence ∧
      parse_u16 (params.getD 3 "") = some days ∧
      out.decoded_blob.expiration = convert_to_ripple_time (env.now + (days : Int) * 86400) ∧
      convert_to_unix_time out.decoded_blob.expiration = env.now + (days : Int) * 86400 := by
  obtain ⟨params, sequence, days, provider, ms, harg, hlen, hp2, hp3, _, _, _, _, _,
    hseq, hexp, _⟩ := signArm_ok_inv env arg out effs h
  refine ⟨params, days, harg, ?_, hp3, hexp, ?_⟩
  · rw [hseq]; exact hp2
  · rw [hexp]
    simp only [convert_to_unix_time, convert_to_ripple_time]
    omega

/-- C8 witness: the theorem applied to a concrete successful fixture run. -/
theorem c8_witness :
    signArm testEnv (some ["IM", "msrc", "7", "30", "ep", "sid"]) =
      (.ok signOutFx, [.getSecret "sid"]) ∧
    ∃ params days,
      (some ["IM", "msrc", "7", "30", "ep", "sid"] : Option (List String)) = some params ∧
      parse_u32 (params.getD 2 "") = some signOutFx.decoded_blob.sequence ∧
      parse_u16 (params.getD 3 "") = some days ∧
      signOutFx.decoded_blob.expiration =
        convert_to_ripple_time (testEnv.now + (days : Int) * 86400) ∧
      convert_to_unix_time signOutFx.decoded_blob.expiration =
        testEnv.now + (days : Int) * 86400 :=
  ⟨by decide, c8_blob_sequence_expiration testEnv (some ["IM", "msrc", "7", "30", "ep", "sid"])
    signOutFx [.getSecret "sid"] (by decide)⟩

/-- C1: for every successful run of the Sign command the produced document's
`blob` field is the base64 encoding of exactly the payload passed to `sign`
and its `signature` field is the signature returned by `sign` over that
payload; consequently, under the specification's codec and crypto contracts
(base64 round trip, sign/verify round trip for the keypair whose public key
matches the document manifest's signing key) and a valid pre-existing
manifest signature, running the Load verification over the fresh document
reports both the manifest check and the blob check as valid. -/
theorem c1_sign_then_verify_round_trip (env : Env) (arg : Option (List String))
    (out : SignOutput) (effs : List Effect)
    (hsign : signArm env arg = (.ok out, effs))
    (hB64 : ∀ s, env.base64_decode (env.base64_encode s) = some s)
    (hSV : ∀ msg, env.verify_signature out.keypair.public_key msg
        (env.sign out.keypair.public_key out.keypair.private_key msg) = true)
    (im : Manifest) (kb : List Nat) (mp : String)
    (hIm : env.decode_manifest out.unl.manifest = some im)
    (hKb : env.base58_decode .nodePublic im.signing_public_key = some kb)
    (hKey : upperStr (hexEncode kb) = out.keypair.public_key)
    (hMp : env.serialize_manifest_data im = some mp)
    (hMv : env.verify_signature (upperStr (hexEncode kb)) mp im.signature = true) :
    out.unl.blob = env.base64_encode out.payload ∧
    out.unl.signature = env.sign out.keypair.public_key out.keypair.private_key out.payload ∧
    ∀ r, loadChecks env out.unl = .ok r →
      r.manifest_verification = true ∧ r.unl_verification = true := by
  obtain ⟨params, sequence, days, provider, ms, harg, hlen, hp2, hp3, hp4, hp5, hp1, hbv,
    hsb, hseq, hexp, hpk, hman, hblob, hsig, heffs⟩ := signArm_ok_inv env arg out effs hsign
  refine ⟨hblob, hsig, ?_⟩
  intro r hr
  cases hpb : env.parse_blob out.payload with
  | none =>
    simp only [loadChecks, decode_unl, hblob, hB64, Option.some_bind, hpb,
      Option.map_none'] at hr
    exact Except.noConfusion hr
  | some b =>
    cases hvl : validatorLines env (b.validators.map fun v =>
        { v with decoded_manifest := env.decode_manifest v.manifest }) with
    | error e =>
      simp only [loadChecks, decode_unl, hblob, hB64, Option.some_bind, hpb,
        Option.map_some', hIm, hKb, hMp, hvl] at hr
      exact Except.noConfusion hr
    | ok ls =>
      simp only [loadChecks, decode_unl, hblob, hB64, Option.some_bind, hpb,
        Option.map_some', hIm, hKb, hMp, hvl, Except.ok.injEq] at hr
      subst hr
      refine ⟨hMv, ?_⟩
      show env.verify_signature (upperStr (hexEncode kb)) out.payload out.unl.signature = true
      rw [hKey, hsig]
      exact hSV out.payload

/-- C1 witness: the theorem applied to the concrete fixture run; the load
checks over the freshly produced document indeed both come out valid. -/
theorem c1_witness :
    signArm testEnv (some ["IM", "msrc", "7", "30", "ep", "sid"]) =
      (.ok signOutFx, [.getSecret "sid"]) ∧
    signOutFx.unl.blob = testEnv.base64_encode signOutFx.payload ∧
    signOutFx.unl.signature =
      testEnv.sign signOutFx.keypair.public_key signOutFx.keypair.private_key signOutFx.payload ∧
    loadChecks testEnv signOutFx.unl =
      .ok { manifest_verification := true, unl_verification := true, sequence := 7,
            expiration_unix := convert_to_unix_time 0, validator_lines := [] } := by
  have h := c1_sign_then_verify_round_trip testEnv (some ["IM", "msrc", "7", "30", "ep", "sid"])
    signOutFx [.getSecret "sid"] (by decide) (fun s => rfl)
    (fun msg => beq_self_eq_true _)
    imManifest [1, 2] "MP-IMMASTER" (by decide) (by decide) (by decide) (by decide) (by decide)
  exact ⟨by decide, h.1, h.2.1, by decide⟩

/-- C9: a Compare invocation with a source count other than two, and a Sign
invocation with a parameter count other than six or a non-numeric sequence
or horizon, fail with a parameter error and an empty effect trace — no
document fetch and no secret retrieval is performed. -/
theorem c9_param_errors_before_any_effect :
    (∀ env : Env, compareArm env none = (.error .noParams, [])) ∧
    (∀ (env : Env) (ids : List String), ids.length ≠ 2 →
      compareArm env (some ids) = (.error .wrongParamCount, [])) ∧
    (∀ env : Env, signArm env none = (.error .noParams, [])) ∧
    (∀ (env : Env) (ps : List String), ps.length ≠ 6 →
      signArm env (some ps) = (.error .wrongParamCount, [])) ∧
    (∀ (env : Env) (ps : List String), ps.length = 6 → parse_u32 (ps.getD 2 "") = none →
      signArm env (some ps) = (.error .parseError, [])) ∧
    (∀ (env : Env) (ps : List String), ps.length = 6 → parse_u16 (ps.getD 3 "") = none →
      signArm env (some ps) = (.error .parseError, [])) ∧
    Err.noParams.isParamError = true ∧
    Err.wrongParamCount.isParamError = true ∧
    Err.parseError.isParamError = true := by
  refine ⟨fun env => rfl, ?_, fun env => rfl, ?_, ?_, ?_, rfl, rfl, rfl⟩
  · intro env ids hlen
    rw [compareArm, if_neg hlen]
  · intro env ps hlen
    rw [signArm, if_neg hlen]
  · intro env ps hlen hp2
    rw [signArm, if_pos hlen, hp2]
  · intro env ps hlen hp3
    cases hp2 : parse_u32 (ps.getD 2 "") with
    | none => rw [signArm, if_pos hlen, hp2]
    | some n => rw [signArm, if_pos hlen, hp2, hp3]

/-- C2 (amended): the signature-check outcomes of the Load command —
manifest check, blob check, and the per-validator master and signing checks
of validators with a decodable manifest — are stored and surfaced as plain
booleans (rendered as tick or cross), and evaluating a signature check never
causes a fatal failure: for an arbitrary environment (hence arbitrary check
outcomes) the command completes and reports exactly the booleans the
verifier returned.  A validator without a decodable manifest gets no
surfaced status at all. -/
theorem c2_checks_boolean_and_nonfatal (env : Env) (unl : Unl)
    (b : DecodedBlob) (im : Manifest) (kb : List Nat) (mp s : String)
    (ls : List ValidatorLine)
    (hb64 : env.base64_decode unl.blob = some s)
    (hpb : env.parse_blob s = some b)
    (hm : env.decode_manifest unl.manifest = some im)
    (hkb : env.base58_decode .nodePublic im.signing_public_key = some kb)
    (hmp : env.serialize_manifest_data im = some mp)
    (hvl : validatorLines env (b.validators.map fun v =>
        { v with decoded_manifest := env.decode_manifest v.manifest }) = .ok ls) :
    loadChecks env unl =
      .ok { manifest_verification :=
              env.verify_signature (upperStr (hexEncode kb)) mp im.signature
            unl_verification :=
              env.verify_signature (upperStr (hexEncode kb)) s unl.signature
            sequence := b.sequence
            expiration_unix := convert_to_unix_time b.expiration
            validator_lines := ls } := by
  simp only [loadChecks, decode_unl, hb64, Option.some_bind, hpb, Option.map_some',
    hm, hkb, hmp, hvl]

/-- C2 counterexample: check outcomes are not three-valued.  The rendering
of a check outcome has exactly the two forms tick and cross (its argument is
a plain boolean, as line 258 of `main.rs` fixes), and a not-evaluated check
is not surfaced at all: loading a document whose single validator has an
undecodable manifest yields a report with zero per-validator statuses — no
`NotChecked` value exists anywhere in the flow. -/
theorem c2_counterexample :
    get_tick_or_cross true = "✓" ∧
    get_tick_or_cross false = "✗" ∧
    blobC.validators.length = 1 ∧
    loadChecks testEnv unlC =
      .ok { manifest_verification := true, unl_verification := true, sequence := 9,
            expiration_unix := convert_to_unix_time 50, validator_lines := [] } := by
  decide

/-- C2 witness: the amended theorem applied to the fixture document. -/
theorem c2_witness :
    loadChecks testEnv unlA =
      .ok { manifest_verification := true, unl_verification := true, sequence := 3,
            expiration_unix := convert_to_unix_time 100,
            validator_lines := [{ validation_public_key := "0304", display_key := "n0304",
                                  master_check := true, signing_check := true,
                                  domain := "v1.example.com" }] } :=
  (c2_checks_boolean_and_nonfatal testEnv unlA blobA imManifest [1, 2] "MP-IMMASTER" "BLOB-A"
    [{ validation_public_key := "0304", display_key := "n0304", master_check := true,
       signing_check := true, domain := "v1.example.com" }]
    (by decide) (by decide) (by decide) (by decide) (by decide) (by decide)).trans (by decide)

/-- C4 (amended): during Load a validator whose manifest did not decode is
recorded with `decoded_manifest = None` (by the decoding step) and does not
abort the command, but it is silently skipped — it contributes no surfaced
report line — while all other validators are still checked and reported. -/
theorem c4_undecodable_validator_skipped :
    (∀ (env : Env) (v : Validator) (vs : List Validator), v.decoded_manifest = none →
      validatorLines env (v :: vs) = validatorLines env vs) ∧
    (∀ (env : Env) (u : Unl) (s : String) (b : DecodedBlob),
      env.base64_decode u.blob = some s → env.parse_blob s = some b →
      (decode_unl env u).decoded_blob =
        some { b with validators := b.validators.map fun v =>
          { v with decoded_manifest := env.decode_manifest v.manifest } }) := by
  constructor
  · exact fun env v vs h => validatorLines_cons_none env vs h
  · intro env u s b h1 h2
    simp [decode_unl, h1, h2]

/-- C4 counterexample: the undecodable-manifest validator is not surfaced as
unverifiable — it is not surfaced at all.  The fixture document's blob has
exactly one validator, its manifest does not decode, the Load command
completes, and the report contains zero validator lines. -/
theorem c4_counterexample :
    testEnv.decode_manifest "VBAD" = none ∧
    blobC.validators = [rawValidator "FFFF" "VBAD"] ∧
    loadChecks testEnv unlC =
      .ok { manifest_verification := true, unl_verification := true, sequence := 9,
            expiration_unix := convert_to_unix_time 50, validator_lines := [] } := by
  decide

/-- C4 witness: the amended theorem applied to concrete fixtures — the
undecodable validator is skipped, and the decoding step records its
failed manifest decode as none. -/
theorem c4_witness :
    validatorLines testEnv (rawValidator "FFFF" "VBAD" :: blobA.validators) =
      validatorLines testEnv blobA.validators ∧
    (decode_unl testEnv unlC).decoded_blob =
      some { blobC with validators := blobC.validators.map fun v =>
        { v with decoded_manifest := testEnv.decode_manifest v.manifest } } :=
  ⟨c4_undecodable_validator_skipped.1 testEnv (rawValidator "FFFF" "VBAD") blobA.validators rfl,
   c4_undecodable_validator_skipped.2 testEnv unlC "BLOB-C" blobC (by decide) (by decide)⟩

/-- C10: during Load, when a validator's manifest decoded but base58
decoding of its master or signing public key fails, the entire command
aborts with an error; by contrast a validator whose keys do decode always
yields a report line, whatever the signature checks return — verification
failures never abort. -/
theorem c10_base58_failure_aborts_load (env : Env) (url : String) (unl : Unl)
    (s : String) (b : DecodedBlob) (v : Validator) (vm : Manifest) (p : String)
    (hget : env.get_unl url = .ok unl)
    (hb64 : env.base64_decode unl.blob = some s)
    (hpb : env.parse_blob s = some b)
    (hv : v ∈ b.validators)
    (hdm : env.decode_manifest v.manifest = some vm)
    (hser : env.serialize_manifest_data vm = some p)
    (hb58 : env.base58_decode .nodePublic vm.master_public_key = none ∨
            env.base58_decode .nodePublic vm.signing_public_key = none) :
    (∃ e, (loadArm env (some url)).1 = .error e) ∧
    (∀ (v2 : Validator) (vm2 : Manifest) (p2 disp : String) (mk sk : List Nat),
      v2.decoded_manifest = some vm2 →
      env.serialize_manifest_data vm2 = some p2 →
      env.base58_decode .nodePublic vm2.master_public_key = some mk →
      env.base58_decode .nodePublic vm2.signing_public_key = some sk →
      env.hex_to_base58 v2.validation_public_key = some disp →
      ∃ l, validatorLine env v2 = .ok (some l)) := by
  constructor
  · cases hm : env.decode_manifest unl.manifest with
    | none =>
      simp only [loadArm, hget, loadChecks, decode_unl, hb64, Option.some_bind, hpb,
        Option.map_some', hm]
      exact ⟨_, rfl⟩
    | some im =>
      cases hkb : env.base58_decode .nodePublic im.signing_public_key with
      | none =>
        simp only [loadArm, hget, loadChecks, decode_unl, hb64, Option.some_bind, hpb,
          Option.map_some', hm, hkb]
        exact ⟨_, rfl⟩
      | some kb =>
        cases hmp : env.serialize_manifest_data im with
        | none =>
          simp only [loadArm, hget, loadChecks, decode_unl, hb64, Option.some_bind, hpb,
            Option.map_some', hm, hkb, hmp]
          exact ⟨_, rfl⟩
        | some mp =>
          obtain ⟨e1, hline⟩ := validatorLine_error_base58 env
            (v := { v with decoded_manifest := some vm }) rfl hser hb58
          have hmem : ({ v with decoded_manifest := some vm } : Validator) ∈
              b.validators.map fun w =>
                { w with decoded_manifest := env.decode_manifest w.manifest } := by
            have h2 := List.mem_map_of_mem
              (fun w => { w with decoded_manifest := env.decode_manifest w.manifest }) hv
            simp only [hdm] at h2
            exact h2
          obtain ⟨e2, hvl⟩ := validatorLines_error_of_mem env hmem hline
          simp only [loadArm, hget, loadChecks, decode_unl, hb64, Option.some_bind, hpb,
            Option.map_some', hm, hkb, hmp, hvl]
          exact ⟨e2, rfl⟩
  · intro v2 vm2 p2 disp mk sk h1 h2 h3 h4 h5
    exact ⟨_, validatorLine_ok env h1 h2 h3 h4 h5⟩

/-- C10 witness: the theorem applied to the fixture document whose only
validator's decoded manifest carries a non-base58-decodable master key (the
command aborts), together with a fully decodable validator that yields a
line. -/
theorem c10_witness :
    (∃ e, (loadArm testEnv (some "uB")).1 = .error e) ∧
    (∃ l, validatorLine testEnv vGood = .ok (some l)) := by
  have h := c10_base58_failure_aborts_load testEnv "uB" unlB "BLOB-B" blobB
    (rawValidator "0304" "NOB58") vmBadKey "MP-BADKEY"
    (by decide) (by decide) (by decide) (by decide) (by decide) (by decide)
    (Or.inl (by decide))
  exact ⟨h.1, h.2 vGood vm1 "MP-V1MASTER" "n0304" [3, 4] [5, 6]
    (by decide) (by decide) (by decide) (by decide) (by decide)⟩

/-- C9 witness: the theorem applied at concrete malformed invocations. -/
theorem c9_witness :
    compareArm testEnv none = (.error .noParams, []) ∧
    compareArm testEnv (some ["uA"]) = (.error .wrongParamCount, []) ∧
    compareArm testEnv (some ["uA", "uA", "uA"]) = (.error .wrongParamCount, []) ∧
    signArm testEnv (some ["IM", "msrc", "7", "30", "ep"]) = (.error .wrongParamCount, []) ∧
    signArm testEnv (some ["IM", "msrc", "x7", "30", "ep", "sid"]) = (.error .parseError, []) ∧
    signArm testEnv (some ["IM", "msrc", "7", "d30", "ep", "sid"]) = (.error .parseError, []) :=
  ⟨c9_param_errors_before_any_effect.1 testEnv,
   c9_param_errors_before_any_effect.2.1 testEnv ["uA"] (by decide),
   c9_param_errors_before_any_effect.2.1 testEnv ["uA", "uA", "uA"] (by decide),
   c9_param_errors_before_any_effect.2.2.2.1 testEnv ["IM", "msrc", "7", "30", "ep"] (by decide),
   c9_param_errors_before_any_effect.2.2.2.2.1 testEnv ["IM", "msrc", "x7", "30", "ep", "sid"]
     (by decide) (by decide),
   c9_param_errors_before_any_effect.2.2.2.2.2.1 testEnv ["IM", "msrc", "7", "d30", "ep", "sid"]
     (by decide) (by decide)⟩

end UnlTool
